import Mathlib

set_option autoImplicit false

namespace Lemkpg

/-!
Shallow embedding of the query-building layer of the `lemkpg` repository
(`src/lemkpg/__init__.py` and `src/lemkpg/utils.py`).  Every query builder
is embedded as a pure function from its parameters to the SQL statement
string it assembles; paths that raise a Python exception return
`Except PyError`.  The executor is embedded as a function on the row
stream the driver produces.
-/

/-- A Python value appearing inside a condition tuple: a string or `None`.
These are the only shapes the repository's own examples and docstrings put
into condition tuples. -/
inductive PyLit where
  | str (s : String)
  | none
deriving DecidableEq, Repr

/-- How an f-string renders such a value (`str(None)` is `"None"`). -/
def PyLit.fmt : PyLit → String
  | PyLit.str s => s
  | PyLit.none => "None"

/-- An element of a `conditions_list` argument: either a Python tuple of
some arity (`get_conditions` checks only `isinstance(cond, tuple)`, never
the arity) or some non-tuple object. -/
inductive CondElem where
  | tuple (items : List PyLit)
  | nonTuple
deriving DecidableEq, Repr

/-- The `isinstance(cond, tuple)` test of `utils.py` line 14. -/
def CondElem.isTuple : CondElem → Bool
  | CondElem.tuple _ => true
  | CondElem.nonTuple => false

/-- The whole `conditions_list` argument of `LemkPgUtils.get_conditions`:
a Python list of elements, or some non-list object. -/
inductive CondInput where
  | list (elems : List CondElem)
  | nonList
deriving DecidableEq, Repr

/-- The Python exceptions the embedded code can raise.
`lemkPgError` records a `raise LemkPgError(message)` site (the class lives
in `lemkpg/exceptions.py`, which only `__init__.py` imports; `utils.py`
raises the bare name without importing it, so at runtime that particular
raise surfaces as a `NameError` — the embedding records the raise site and
its message).  `indexError` is a Python `IndexError` from tuple indexing,
`typeError` a Python `TypeError` (e.g. `", ".join(None)`). -/
inductive PyError where
  | lemkPgError (message : String)
  | indexError
  | typeError
deriving DecidableEq, Repr

/-- The fragment built for one condition tuple (`utils.py` line 19):
`condition[3] + ' '` when `condition[3] is not None`, then
`condition[0] condition[1] 'condition[2]'`. -/
def condFragment (c o v j : PyLit) : String :=
  (match j with
   | PyLit.str s => s ++ " "
   | PyLit.none => "") ++ c.fmt ++ " " ++ o.fmt ++ " '" ++ v.fmt ++ "'"

/-- One step of the list comprehension of `utils.py` lines 18-21: the
f-string evaluates `condition[3]` first, so a tuple with fewer than four
items raises `IndexError`; a tuple with four or more items uses its first
four and ignores the rest. -/
def condFragmentOf : CondElem → Except PyError String
  | CondElem.tuple (c :: o :: v :: j :: _) => Except.ok (condFragment c o v j)
  | _ => Except.error PyError.indexError

/-- The list comprehension of `utils.py` lines 18-21, left to right; the
first exception raised by an element aborts the whole comprehension. -/
def buildFragments : List CondElem → Except PyError (List String)
  | [] => Except.ok []
  | e :: rest =>
    match condFragmentOf e with
    | Except.error err => Except.error err
    | Except.ok f =>
      match buildFragments rest with
      | Except.error err => Except.error err
      | Except.ok fs => Except.ok (f :: fs)

/-- `LemkPgUtils.get_conditions` (`src/lemkpg/utils.py` lines 8-22): the
input must be a list and every element must satisfy
`isinstance(cond, tuple)`; then the comprehension builds one fragment per
element.  Tuple arity is not part of the validation. -/
def LemkPgUtils.get_conditions : CondInput → Except PyError (List String)
  | CondInput.nonList =>
    Except.error (PyError.lemkPgError "Variable condition_list should be list")
  | CondInput.list elems =>
    if elems.all CondElem.isTuple then
      buildFragments elems
    else
      Except.error (PyError.lemkPgError "Variable condition_list should have tuples within")

/-- A well-formed condition tuple `(column, operator, value, joiner)` as
the repository's docstrings describe it. -/
def condTuple (c o v : String) (j : Option String) : CondElem :=
  CondElem.tuple [PyLit.str c, PyLit.str o, PyLit.str v,
    match j with
    | some s => PyLit.str s
    | Option.none => PyLit.none]

/-- What an executed read statement makes the cursor yield: a stream of
rows, or a `psycopg2.ProgrammingError` reported as iteration starts. -/
inductive CursorRead (α : Type) where
  | rows (rs : List α)
  | programmingError

/-- `LemkPgUtils.get_query_result` (`src/lemkpg/utils.py` lines 25-37):
`return result` sits inside the `async for`, so the first row is returned
as a one-element list; an empty iteration falls off the end of the
function (implicit `None`); a `ProgrammingError` is caught, printed and
turned into `return None`. -/
def LemkPgUtils.get_query_result {α : Type} : CursorRead α → Option (List α)
  | CursorRead.rows [] => Option.none
  | CursorRead.rows (r :: _) => some [r]
  | CursorRead.programmingError => Option.none

/-- Modelled from the spec: `JOINS_LIST` is imported from
`lemkpg.constants`, a module of this repository that is not present under
`src/`; §6 of the spec fixes the enumerated join kinds as the exact
strings `INNER JOIN`, `LEFT JOIN`, `RIGHT JOIN`, `FULL OUTER JOIN`. -/
def JOINS_LIST : List String := ["INNER JOIN", "LEFT JOIN", "RIGHT JOIN", "FULL OUTER JOIN"]

/-- A value of an `insert` values tuple: the repository's examples use
integers and strings. -/
inductive PyVal where
  | int (n : Int)
  | str (s : String)
deriving DecidableEq, Repr

/-- Python `repr` of such a value, as `str(tuple)` renders its items. -/
def PyVal.rep : PyVal → String
  | PyVal.int n => toString n
  | PyVal.str s => "'" ++ s ++ "'"

/-- Python `str` of a tuple, as interpolated by `f"... VALUES {values}"`:
`(1, 'a')`, with the trailing comma of a one-item tuple. -/
def tupleRep (vs : List PyVal) : String :=
  match vs with
  | [v] => "(" ++ v.rep ++ ",)"
  | _ => "(" ++ String.intercalate ", " (vs.map PyVal.rep) ++ ")"

/-- The `ORDER BY` fragment shared by `get_all` and `get`:
`' ORDER BY ' + order_by + ' ' + sort_type if order_by and sort_type else ''`
(Python truthiness: present and non-empty). -/
def sortFragment (order_by sort_type : Option String) : String :=
  match order_by, sort_type with
  | some o, some s => if !o.isEmpty && !s.isEmpty then " ORDER BY " ++ o ++ " " ++ s else ""
  | _, _ => ""

/-- The query-fields expression shared by the four convenience join
variants: `("*" if not fields and all else f'{", ".join(fields)}')`.
When the else branch is taken with `fields = None`, `", ".join(None)`
raises `TypeError`. -/
def queryFields (fields : Option (List String)) (all : Bool) : Except PyError String :=
  if !(match fields with | some (_ :: _) => true | _ => false) && all then
    Except.ok "*"
  else
    match fields with
    | some fs => Except.ok (String.intercalate ", " fs)
    | Option.none => Except.error PyError.typeError

/-- Outcome of invoking an entry point: the statement it handed to the
executor together with the Python return value, or an `AttributeError`
raised while resolving a method name on the API object. -/
inductive CallOutcome where
  | executed (query : String) (returned : Bool)
  | attributeError (missing : String)
deriving DecidableEq, Repr

namespace LemkPgApi

/-- The attribute names `class LemkPgApi` defines (`__init__.py` lines
9-582, in source order).  Python resolves `self.<name>` against these. -/
def attrs : List String :=
  ["__init__", "_run_async", "create_table", "insert", "get_all", "get", "update",
   "alter_table", "raw_query", "get_with_join", "inner_join", "left_join",
   "right_join", "full_join", "delete_table", "clear_table", "delete_records",
   "count", "avg", "sum", "min", "max"]

/-- `LemkPgApi.create_table` query assembly (`__init__.py` lines 54-63). -/
def create_table (table_name : String) (fields : List (String × String))
    (primary_key : Bool) : String :=
  let new_fields := fields.map fun field => field.1 ++ " " ++ field.2
  if !primary_key then
    "CREATE TABLE IF NOT EXISTS " ++ table_name ++ " (" ++
      String.intercalate ", " new_fields ++ ")"
  else
    "CREATE TABLE IF NOT EXISTS " ++ table_name ++ " (id SERIAL PRIMARY KEY, " ++
      String.intercalate ", " new_fields ++ ")"

/-- `LemkPgApi.insert` query assembly (`__init__.py` line 76): the column
part is `'(' + ', '.join(columns) + ')' if columns else ''` (so `None` and
an empty columns sequence both leave it empty), between two literal
spaces. -/
def insert (table_name : String) (values : List PyVal)
    (columns : Option (List String)) : String :=
  "INSERT INTO " ++ table_name ++ " " ++
    (match columns with
     | some (c :: cs) => "(" ++ String.intercalate ", " (c :: cs) ++ ")"
     | _ => "") ++
    " VALUES " ++ tupleRep values

/-- `LemkPgApi.get` query assembly (`__init__.py` lines 119-131).  The
`if conditions_list:` truthiness test sends `None` and `[]` to the
no-`WHERE` branch. -/
def get (table_name : String) (fields : List String)
    (conditions_list : Option (List CondElem)) (distinct : Bool)
    (order_by sort_type : Option String) : Except PyError String :=
  let dist := if distinct then "DISTINCT " else ""
  let sort := sortFragment order_by sort_type
  match conditions_list with
  | some (e :: es) =>
    match LemkPgUtils.get_conditions (CondInput.list (e :: es)) with
    | Except.error err => Except.error err
    | Except.ok conditions =>
      Except.ok ("SELECT " ++ dist ++ String.intercalate ", " fields ++ " FROM " ++
        table_name ++ " WHERE " ++ String.intercalate " " conditions ++ sort)
  | _ =>
    Except.ok ("SELECT " ++ dist ++ String.intercalate ", " fields ++ " FROM " ++
      table_name ++ sort)

/-- `LemkPgApi.update` query assembly (`__init__.py` lines 150-161). -/
def update (table_name : String) (fields : List (String × String))
    (conditions_list : Option (List CondElem)) : Except PyError String :=
  let columns_for_update := fields.map fun field => field.1 ++ " = '" ++ field.2 ++ "'"
  match conditions_list with
  | some (e :: es) =>
    match LemkPgUtils.get_conditions (CondInput.list (e :: es)) with
    | Except.error err => Except.error err
    | Except.ok conditions =>
      Except.ok ("UPDATE " ++ table_name ++ " SET " ++
        String.intercalate ", " columns_for_update ++ " WHERE " ++
        String.intercalate " " conditions)
  | _ =>
    Except.ok ("UPDATE " ++ table_name ++ " SET " ++
      String.intercalate ", " columns_for_update)

/-- `LemkPgApi.get_with_join` query assembly (`__init__.py` lines
219-235): the join kind is validated against `JOINS_LIST` before any SQL
is assembled. -/
def get_with_join (table_name join_table_name join_type : String)
    (fields : List String) (on_condition : String × String × String)
    (where_conditions_list : Option (List CondElem)) : Except PyError String :=
  if join_type ∉ JOINS_LIST then
    Except.error (PyError.lemkPgError
      ("Incorrect JOIN type. Please use one of the valid JOIN types: " ++
        String.intercalate ", " JOINS_LIST))
  else
    match where_conditions_list with
    | some (e :: es) =>
      match LemkPgUtils.get_conditions (CondInput.list (e :: es)) with
      | Except.error err => Except.error err
      | Except.ok conditions =>
        Except.ok ("SELECT " ++ String.intercalate ", " fields ++ " FROM " ++
          table_name ++ " " ++ join_type ++ " " ++ join_table_name ++
          " ON " ++ on_condition.1 ++ " " ++ on_condition.2.1 ++ " " ++ on_condition.2.2 ++
          " WHERE " ++ String.intercalate " " conditions)
    | _ =>
      Except.ok ("SELECT " ++ String.intercalate ", " fields ++ " FROM " ++
        table_name ++ " " ++ join_type ++ " " ++ join_table_name ++
        " ON " ++ on_condition.1 ++ " " ++ on_condition.2.1 ++ " " ++ on_condition.2.2)

/-- `LemkPgApi.inner_join` query assembly (`__init__.py` lines 261-274):
`query_fields` is computed first, so its `TypeError` precedes any
condition handling. -/
def inner_join (table_name join_table_name : String)
    (on_condition : String × String × String)
    (where_conditions_list : Option (List CondElem))
    (fields : Option (List String)) (all : Bool) : Except PyError String :=
  match queryFields fields all with
  | Except.error err => Except.error err
  | Except.ok query_fields =>
    match where_conditions_list with
    | some (e :: es) =>
      match LemkPgUtils.get_conditions (CondInput.list (e :: es)) with
      | Except.error err => Except.error err
      | Except.ok conditions =>
        Except.ok ("SELECT " ++ query_fields ++ " FROM " ++ table_name ++
          " INNER JOIN " ++ join_table_name ++
          " ON " ++ on_condition.1 ++ " " ++ on_condition.2.1 ++ " " ++ on_condition.2.2 ++
          " WHERE " ++ String.intercalate " " conditions)
    | _ =>
      Except.ok ("SELECT " ++ query_fields ++ " FROM " ++ table_name ++
        " INNER JOIN " ++ join_table_name ++
        " ON " ++ on_condition.1 ++ " " ++ on_condition.2.1 ++ " " ++ on_condition.2.2)

/-- `LemkPgApi.left_join` query assembly (`__init__.py` lines 300-313). -/
def left_join (table_name join_table_name : String)
    (on_condition : String × String × String)
    (where_conditions_list : Option (List CondElem))
    (fields : Option (List String)) (all : Bool) : Except PyError String :=
  match queryFields fields all with
  | Except.error err => Except.error err
  | Except.ok query_fields =>
    match where_conditions_list with
    | some (e :: es) =>
      match LemkPgUtils.get_conditions (CondInput.list (e :: es)) with
      | Except.error err => Except.error err
      | Except.ok conditions =>
        Except.ok ("SELECT " ++ query_fields ++ " FROM " ++ table_name ++
          " LEFT JOIN " ++ join_table_name ++
          " ON " ++ on_condition.1 ++ " " ++ on_condition.2.1 ++ " " ++ on_condition.2.2 ++
          " WHERE " ++ String.intercalate " " conditions)
    | _ =>
      Except.ok ("SELECT " ++ query_fields ++ " FROM " ++ table_name ++
        " LEFT JOIN " ++ join_table_name ++
        " ON " ++ on_condition.1 ++ " " ++ on_condition.2.1 ++ " " ++ on_condition.2.2)

/-- `LemkPgApi.right_join` query assembly (`__init__.py` lines 339-352). -/
def right_join (table_name join_table_name : String)
    (on_condition : String × String × String)
    (where_conditions_list : Option (List CondElem))
    (fields : Option (List String)) (all : Bool) : Except PyError String :=
  match queryFields fields all with
  | Except.error err => Except.error err
  | Except.ok query_fields =>
    match where_conditions_list with
    | some (e :: es) =>
      match LemkPgUtils.get_conditions (CondInput.list (e :: es)) with
      | Except.error err => Except.error err
      | Except.ok conditions =>
        Except.ok ("SELECT " ++ query_fields ++ " FROM " ++ table_name ++
          " RIGHT JOIN " ++ join_table_name ++
          " ON " ++ on_condition.1 ++ " " ++ on_condition.2.1 ++ " " ++ on_condition.2.2 ++
          " WHERE " ++ String.intercalate " " conditions)
    | _ =>
      Except.ok ("SELECT " ++ query_fields ++ " FROM " ++ table_name ++
        " RIGHT JOIN " ++ join_table_name ++
        " ON " ++ on_condition.1 ++ " " ++ on_condition.2.1 ++ " " ++ on_condition.2.2)

/-- `LemkPgApi.full_join` query assembly (`__init__.py` lines 378-391). -/
def full_join (table_name join_table_name : String)
    (on_condition : String × String × String)
    (where_conditions_list : Option (List CondElem))
    (fields : Option (List String)) (all : Bool) : Except PyError String :=
  match queryFields fields all with
  | Except.error err => Except.error err
  | Except.ok query_fields =>
    match where_conditions_list with
    | some (e :: es) =>
      match LemkPgUtils.get_conditions (CondInput.list (e :: es)) with
      | Except.error err => Except.error err
      | Except.ok conditions =>
        Except.ok ("SELECT " ++ query_fields ++ " FROM " ++ table_name ++
          " FULL OUTER JOIN " ++ join_table_name ++
          " ON " ++ on_condition.1 ++ " " ++ on_condition.2.1 ++ " " ++ on_condition.2.2 ++
          " WHERE " ++ String.intercalate " " conditions)
    | _ =>
      Except.ok ("SELECT " ++ query_fields ++ " FROM " ++ table_name ++
        " FULL OUTER JOIN " ++ join_table_name ++
        " ON " ++ on_condition.1 ++ " " ++ on_condition.2.1 ++ " " ++ on_condition.2.2)

/-- `LemkPgApi.delete_table` (`__init__.py` lines 393-406).  Its body ends
with `return self.run_async(func())`, but the blocking runner is named
`_run_async`; `run_async` is not an attribute of the class, so the call
raises `AttributeError` and no statement is ever executed.  The embedding
makes the attribute lookup explicit against `attrs`. -/
def delete_table (table_name : String) : CallOutcome :=
  if "run_async" ∈ attrs then
    CallOutcome.executed ("DROP TABLE IF EXISTS " ++ table_name) true
  else
    CallOutcome.attributeError "run_async"

/-- `LemkPgApi.delete_records` query assembly (`__init__.py` lines
438-447). -/
def delete_records (table_name : String)
    (conditions_list : Option (List CondElem)) : Except PyError String :=
  match conditions_list with
  | some (e :: es) =>
    match LemkPgUtils.get_conditions (CondInput.list (e :: es)) with
    | Except.error err => Except.error err
    | Except.ok conditions =>
      Except.ok ("DELETE FROM " ++ table_name ++ " WHERE " ++
        String.intercalate " " conditions)
  | _ => Except.ok ("DELETE FROM " ++ table_name)

/-- `LemkPgApi.count` query assembly (`__init__.py` lines 465-474). -/
def count (table_name column : String)
    (conditions_list : Option (List CondElem)) : Except PyError String :=
  match conditions_list with
  | some (e :: es) =>
    match LemkPgUtils.get_conditions (CondInput.list (e :: es)) with
    | Except.error err => Except.error err
    | Except.ok conditions =>
      Except.ok ("SELECT COUNT(" ++ column ++ ") FROM " ++ table_name ++
        " WHERE " ++ String.intercalate " " conditions)
  | _ => Except.ok ("SELECT COUNT(" ++ column ++ ") FROM " ++ table_name)

/-- `LemkPgApi.avg` query assembly (`__init__.py` lines 492-501). -/
def avg (table_name column : String)
    (conditions_list : Option (List CondElem)) : Except PyError String :=
  match conditions_list with
  | some (e :: es) =>
    match LemkPgUtils.get_conditions (CondInput.list (e :: es)) with
    | Except.error err => Except.error err
    | Except.ok conditions =>
      Except.ok ("SELECT AVG(" ++ column ++ ") FROM " ++ table_name ++
        " WHERE " ++ String.intercalate " " conditions)
  | _ => Except.ok ("SELECT AVG(" ++ column ++ ") FROM " ++ table_name)

/-- `LemkPgApi.sum` query assembly (`__init__.py` lines 519-528). -/
def sum (table_name column : String)
    (conditions_list : Option (List CondElem)) : Except PyError String :=
  match conditions_list with
  | some (e :: es) =>
    match LemkPgUtils.get_conditions (CondInput.list (e :: es)) with
    | Except.error err => Except.error err
    | Except.ok conditions =>
      Except.ok ("SELECT SUM(" ++ column ++ ") FROM " ++ table_name ++
        " WHERE " ++ String.intercalate " " conditions)
  | _ => Except.ok ("SELECT SUM(" ++ column ++ ") FROM " ++ table_name)

/-- `LemkPgApi.min` query assembly (`__init__.py` lines 546-555). -/
def min (table_name column : String)
    (conditions_list : Option (List CondElem)) : Except PyError String :=
  match conditions_list with
  | some (e :: es) =>
    match LemkPgUtils.get_conditions (CondInput.list (e :: es)) with
    | Except.error err => Except.error err
    | Except.ok conditions =>
      Except.ok ("SELECT MIN(" ++ column ++ ") FROM " ++ table_name ++
        " WHERE " ++ String.intercalate " " conditions)
  | _ => Except.ok ("SELECT MIN(" ++ column ++ ") FROM " ++ table_name)

/-- `LemkPgApi.max` query assembly (`__init__.py` lines 573-582). -/
def max (table_name column : String)
    (conditions_list : Option (List CondElem)) : Except PyError String :=
  match conditions_list with
  | some (e :: es) =>
    match LemkPgUtils.get_conditions (CondInput.list (e :: es)) with
    | Except.error err => Except.error err
    | Except.ok conditions =>
      Except.ok ("SELECT MAX(" ++ column ++ ") FROM " ++ table_name ++
        " WHERE " ++ String.intercalate " " conditions)
  | _ => Except.ok ("SELECT MAX(" ++ column ++ ") FROM " ++ table_name)

end LemkPgApi

namespace AsyncLemkPgApi

/-- `AsyncLemkPgApi.create_table` query assembly (`__init__.py` lines
613-628); the assembly text is identical to the blocking variant. -/
def create_table (table_name : String) (fields : List (String × String))
    (primary_key : Bool) : String :=
  let new_fields := fields.map fun field => field.1 ++ " " ++ field.2
  if !primary_key then
    "CREATE TABLE IF NOT EXISTS " ++ table_name ++ " (" ++
      String.intercalate ", " new_fields ++ ")"
  else
    "CREATE TABLE IF NOT EXISTS " ++ table_name ++ " (id SERIAL PRIMARY KEY, " ++
      String.intercalate ", " new_fields ++ ")"

/-- `AsyncLemkPgApi.insert` query assembly (`__init__.py` line 639). -/
def insert (table_name : String) (values : List PyVal)
    (columns : Option (List String)) : String :=
  "INSERT INTO " ++ table_name ++ " " ++
    (match columns with
     | some (c :: cs) => "(" ++ String.intercalate ", " (c :: cs) ++ ")"
     | _ => "") ++
    " VALUES " ++ tupleRep values

/-- `AsyncLemkPgApi.get` query assembly (`__init__.py` lines 657-686). -/
def get (table_name : String) (fields : List String)
    (conditions_list : Option (List CondElem)) (distinct : Bool)
    (order_by sort_type : Option String) : Except PyError String :=
  let dist := if distinct then "DISTINCT " else ""
  let sort := sortFragment order_by sort_type
  match conditions_list with
  | some (e :: es) =>
    match LemkPgUtils.get_conditions (CondInput.list (e :: es)) with
    | Except.error err => Except.error err
    | Except.ok conditions =>
      Except.ok ("SELECT " ++ dist ++ String.intercalate ", " fields ++ " FROM " ++
        table_name ++ " WHERE " ++ String.intercalate " " conditions ++ sort)
  | _ =>
    Except.ok ("SELECT " ++ dist ++ String.intercalate ", " fields ++ " FROM " ++
      table_name ++ sort)

/-- `AsyncLemkPgApi.get_with_join` query assembly (`__init__.py` lines
739-774). -/
def get_with_join (table_name join_table_name join_type : String)
    (fields : List String) (on_condition : String × String × String)
    (where_conditions_list : Option (List CondElem)) : Except PyError String :=
  if join_type ∉ JOINS_LIST then
    Except.error (PyError.lemkPgError
      ("Incorrect JOIN type. Please use one of the valid JOIN types: " ++
        String.intercalate ", " JOINS_LIST))
  else
    match where_conditions_list with
    | some (e :: es) =>
      match LemkPgUtils.get_conditions (CondInput.list (e :: es)) with
      | Except.error err => Except.error err
      | Except.ok conditions =>
        Except.ok ("SELECT " ++ String.intercalate ", " fields ++ " FROM " ++
          table_name ++ " " ++ join_type ++ " " ++ join_table_name ++
          " ON " ++ on_condition.1 ++ " " ++ on_condition.2.1 ++ " " ++ on_condition.2.2 ++
          " WHERE " ++ String.intercalate " " conditions)
    | _ =>
      Except.ok ("SELECT " ++ String.intercalate ", " fields ++ " FROM " ++
        table_name ++ " " ++ join_type ++ " " ++ join_table_name ++
        " ON " ++ on_condition.1 ++ " " ++ on_condition.2.1 ++ " " ++ on_condition.2.2)

/-- `AsyncLemkPgApi.inner_join` query assembly (`__init__.py` lines
776-809). -/
def inner_join (table_name join_table_name : String)
    (on_condition : String × String × String)
    (where_conditions_list : Option (List CondElem))
    (fields : Option (List String)) (all : Bool) : Except PyError String :=
  match queryFields fields all with
  | Except.error err => Except.error err
  | Except.ok query_fields =>
    match where_conditions_list with
    | some (e :: es) =>
      match LemkPgUtils.get_conditions (CondInput.list (e :: es)) with
      | Except.error err => Except.error err
      | Except.ok conditions =>
        Except.ok ("SELECT " ++ query_fields ++ " FROM " ++ table_name ++
          " INNER JOIN " ++ join_table_name ++
          " ON " ++ on_condition.1 ++ " " ++ on_condition.2.1 ++ " " ++ on_condition.2.2 ++
          " WHERE " ++ String.intercalate " " conditions)
    | _ =>
      Except.ok ("SELECT " ++ query_fields ++ " FROM " ++ table_name ++
        " INNER JOIN " ++ join_table_name ++
        " ON " ++ on_condition.1 ++ " " ++ on_condition.2.1 ++ " " ++ on_condition.2.2)

/-- `AsyncLemkPgApi.delete_table` (`__init__.py` lines 916-925): builds
`DROP TABLE IF EXISTS <name>`, executes it and returns `True`. -/
def delete_table (table_name : String) : CallOutcome :=
  CallOutcome.executed ("DROP TABLE IF EXISTS " ++ table_name) true

end AsyncLemkPgApi

/-! Helper lemmas about the condition builder. -/

theorem condFragmentOf_error (x : CondElem) (err : PyError)
    (h : condFragmentOf x = Except.error err) : err = PyError.indexError := by
  cases x with
  | nonTuple => injection h with h'; exact h'.symm
  | tuple items =>
    cases items with
    | nil => injection h with h'; exact h'.symm
    | cons a t1 =>
      cases t1 with
      | nil => injection h with h'; exact h'.symm
      | cons b t2 =>
        cases t2 with
        | nil => injection h with h'; exact h'.symm
        | cons c t3 =>
          cases t3 with
          | nil => injection h with h'; exact h'.symm
          | cons d t4 => exact absurd h (by simp [condFragmentOf])

theorem buildFragments_error_is_indexError :
    ∀ (elems : List CondElem) (err : PyError),
      buildFragments elems = Except.error err → err = PyError.indexError := by
  intro elems
  induction elems with
  | nil => intro err h; exact absurd h (by simp [buildFragments])
  | cons x xs ih =>
    intro err h
    cases hx : condFragmentOf x with
    | error e1 =>
      simp only [buildFragments, hx] at h
      injection h with h'
      exact h'.symm.trans (condFragmentOf_error x e1 hx)
    | ok f =>
      cases hb : buildFragments xs with
      | error e2 =>
        simp only [buildFragments, hx, hb] at h
        injection h with h'
        exact h'.symm.trans (ih e2 hb)
      | ok fs =>
        simp only [buildFragments, hx, hb] at h
        exact absurd h (by simp)

theorem buildFragments_ok_of_long_tuples :
    ∀ (elems : List CondElem),
      (∀ e ∈ elems, ∃ c o v j rest, e = CondElem.tuple (c :: o :: v :: j :: rest)) →
      ∃ frags, buildFragments elems = Except.ok frags := by
  intro elems
  induction elems with
  | nil => intro _; exact ⟨[], rfl⟩
  | cons x xs ih =>
    intro h
    obtain ⟨c, o, v, j, rest, hx⟩ := h x (List.mem_cons_self x xs)
    obtain ⟨fs, hfs⟩ := ih fun e he => h e (List.mem_cons_of_mem x he)
    subst hx
    exact ⟨condFragment c o v j :: fs,
      by simp only [buildFragments, condFragmentOf, hfs]⟩

theorem buildFragments_condTuple_map
    (l : List (String × String × String × String)) :
    buildFragments (l.map fun p => condTuple p.1 p.2.1 p.2.2.1 (some p.2.2.2)) =
      Except.ok (l.map fun p =>
        p.2.2.2 ++ " " ++ p.1 ++ " " ++ p.2.1 ++ " '" ++ p.2.2.1 ++ "'") := by
  induction l with
  | nil => rfl
  | cons p l ih =>
    have h1 : condFragmentOf (condTuple p.1 p.2.1 p.2.2.1 (some p.2.2.2)) =
        Except.ok (p.2.2.2 ++ " " ++ p.1 ++ " " ++ p.2.1 ++ " '" ++ p.2.2.1 ++ "'") := rfl
    simp only [List.map_cons, buildFragments, h1, ih]

theorem string_append_empty (s : String) : s ++ "" = s := by
  cases s with
  | mk data => show String.mk (data ++ []) = String.mk data; rw [List.append_nil]

/-! The claims. -/

/-- Claim C1: the blocking and async APIs are claimed to build and execute
identical statements on identical input, in particular `delete_table`.  At
table name `demo` the async `delete_table` executes
`DROP TABLE IF EXISTS demo`, while the blocking `delete_table` resolves
the undefined attribute `run_async` (the blocking runner is named
`_run_async`) and fails with `AttributeError`, executing nothing. -/
theorem delete_table_sync_async_divergence :
    LemkPgApi.delete_table "demo" = CallOutcome.attributeError "run_async" ∧
    AsyncLemkPgApi.delete_table "demo" =
      CallOutcome.executed "DROP TABLE IF EXISTS demo" true := by
  constructor
  · have h : "run_async" ∉ LemkPgApi.attrs := by decide
    simp only [LemkPgApi.delete_table, if_neg h]
  · rfl

/-- Claim C2 counterexample: a five-element tuple is not a well-formed
4-element condition tuple, yet `get_conditions` raises no validation error
at all and builds a fragment from the first four items; a three-element
tuple passes validation too and fails only during fragment building, with
`IndexError` rather than the `LemkPgError` kind. -/
theorem get_conditions_arity_unchecked :
    LemkPgUtils.get_conditions (CondInput.list [CondElem.tuple
      [PyLit.str "a", PyLit.str "=", PyLit.str "1", PyLit.none, PyLit.str "junk"]])
      = Except.ok ["a = '1'"] ∧
    LemkPgUtils.get_conditions (CondInput.list [CondElem.tuple
      [PyLit.str "a", PyLit.str "=", PyLit.str "1"]])
      = Except.error PyError.indexError := ⟨rfl, rfl⟩

/-- Claim C2 (amended): `get_conditions` raises its validation error — the
raise statement names `LemkPgError`, a name `utils.py` never imports, so at
runtime that raise surfaces as `NameError` — exactly when the input is not
a list or some element is not a tuple, before any fragment is built; tuple
arity is not validated, and every list whose elements are tuples with at
least four items (in particular every well-formed list of 4-element
condition tuples) has its fragments built without any validation error. -/
theorem get_conditions_validation (input : CondInput) :
    ((∃ m, LemkPgUtils.get_conditions input = Except.error (PyError.lemkPgError m)) ↔
      (input = CondInput.nonList ∨
        ∃ elems, input = CondInput.list elems ∧
          ∃ e ∈ elems, CondElem.isTuple e = false)) ∧
    (∀ elems, input = CondInput.list elems →
      (∀ e ∈ elems, ∃ c o v j rest, e = CondElem.tuple (c :: o :: v :: j :: rest)) →
      ∃ frags, LemkPgUtils.get_conditions input = Except.ok frags) := by
  cases input with
  | nonList =>
    refine ⟨⟨fun _ => Or.inl rfl,
      fun _ => ⟨"Variable condition_list should be list", rfl⟩⟩, ?_⟩
    intro elems h
    exact absurd h (by simp)
  | list elems =>
    by_cases hall : elems.all CondElem.isTuple
    · constructor
      · constructor
        · rintro ⟨m, hm⟩
          simp only [LemkPgUtils.get_conditions, if_pos hall] at hm
          exact absurd (buildFragments_error_is_indexError elems _ hm) (by simp)
        · rintro (h | ⟨elems', heq, e, he, hne⟩)
          · exact absurd h (by simp)
          · injection heq with h'
            subst h'
            rw [List.all_eq_true] at hall
            exact absurd (hall e he) (by simp [hne])
      · intro elems' heq hlong
        injection heq with h'
        subst h'
        obtain ⟨frags, hfrags⟩ := buildFragments_ok_of_long_tuples elems hlong
        exact ⟨frags, by simp only [LemkPgUtils.get_conditions, if_pos hall, hfrags]⟩
    · constructor
      · constructor
        · intro _
          refine Or.inr ⟨elems, rfl, ?_⟩
          rw [List.all_eq_true] at hall
          push_neg at hall
          obtain ⟨e, he, hne⟩ := hall
          exact ⟨e, he, by simpa using hne⟩
        · intro _
          exact ⟨"Variable condition_list should have tuples within",
            by simp only [LemkPgUtils.get_conditions, if_neg hall]⟩
      · intro elems' heq hlong
        injection heq with h'
        subst h'
        refine absurd ?_ hall
        rw [List.all_eq_true]
        intro e he
        obtain ⟨c, o, v, j, rest, hx⟩ := hlong e he
        rw [hx]
        rfl

/-- Claim C2 witness: the amended theorem applied at a concrete
well-formed one-condition list. -/
theorem get_conditions_validation_witness :
    ∃ frags, LemkPgUtils.get_conditions
      (CondInput.list [condTuple "a" "=" "1" Option.none]) = Except.ok frags :=
  (get_conditions_validation (CondInput.list [condTuple "a" "=" "1" Option.none])).2
    [condTuple "a" "=" "1" Option.none] rfl
    (by
      intro e he
      rw [List.mem_singleton] at he
      exact ⟨PyLit.str "a", PyLit.str "=", PyLit.str "1", PyLit.none, [],
        by rw [he]; rfl⟩)

/-- Claim C3: `get_with_join` — the async variant builds identically —
raises the join-kind `LemkPgError`, whose message enumerates the valid
kinds, for every kind outside `JOINS_LIST`, and builds a query string for
every member of `JOINS_LIST`; the four fixed-kind convenience variants use
kinds from `JOINS_LIST` and build a query string without ever raising the
join-kind error. -/
theorem get_with_join_kind_validation :
    (∀ t jt k f oc, k ∉ JOINS_LIST →
      LemkPgApi.get_with_join t jt k f oc Option.none =
        Except.error (PyError.lemkPgError
          "Incorrect JOIN type. Please use one of the valid JOIN types: INNER JOIN, LEFT JOIN, RIGHT JOIN, FULL OUTER JOIN")) ∧
    (∀ t jt k f oc, k ∈ JOINS_LIST →
      ∃ q, LemkPgApi.get_with_join t jt k f oc Option.none = Except.ok q) ∧
    (∀ t jt k f oc conds,
      AsyncLemkPgApi.get_with_join t jt k f oc conds =
        LemkPgApi.get_with_join t jt k f oc conds) ∧
    ("INNER JOIN" ∈ JOINS_LIST ∧ "LEFT JOIN" ∈ JOINS_LIST ∧
      "RIGHT JOIN" ∈ JOINS_LIST ∧ "FULL OUTER JOIN" ∈ JOINS_LIST) ∧
    (∀ t jt oc fs, ∃ q,
      LemkPgApi.inner_join t jt oc Option.none fs true = Except.ok q) ∧
    (∀ t jt oc fs, ∃ q,
      LemkPgApi.left_join t jt oc Option.none fs true = Except.ok q) ∧
    (∀ t jt oc fs, ∃ q,
      LemkPgApi.right_join t jt oc Option.none fs true = Except.ok q) ∧
    (∀ t jt oc fs, ∃ q,
      LemkPgApi.full_join t jt oc Option.none fs true = Except.ok q) := by
  refine ⟨?_, ?_, fun _ _ _ _ _ _ => rfl, by decide, ?_, ?_, ?_, ?_⟩
  · intro t jt k f oc h
    simp only [LemkPgApi.get_with_join, if_pos h]
    rfl
  · intro t jt k f oc h
    simp only [LemkPgApi.get_with_join, if_neg (not_not_intro h)]
    exact ⟨_, rfl⟩
  all_goals
    intro t jt oc fs
    rcases fs with _ | ⟨_ | ⟨a, as⟩⟩ <;> exact ⟨_, rfl⟩

/-- Claim C3 witness: a kind outside the enumerated set raises the
join-kind error with the enumerating message. -/
theorem get_with_join_kind_validation_witness :
    LemkPgApi.get_with_join "demo" "datatable" "CROSS JOIN" ["*"]
      ("demo.trans", "=", "datatable.trans") Option.none =
      Except.error (PyError.lemkPgError
        "Incorrect JOIN type. Please use one of the valid JOIN types: INNER JOIN, LEFT JOIN, RIGHT JOIN, FULL OUTER JOIN") :=
  get_with_join_kind_validation.1 "demo" "datatable" "CROSS JOIN" ["*"]
    ("demo.trans", "=", "datatable.trans") (by decide)

/-- Claim C4: for every well-formed ordered condition sequence — first
joiner absent, every later joiner `AND` or `OR` — the builder produces one
fragment per condition in input order, of the form
`<joiner> <column> <operator> '<literal>'`, the joiner prefix omitted
exactly on the first element. -/
theorem get_conditions_well_formed (c o v : String)
    (rest : List (String × String × String × String))
    (hjoin : ∀ p ∈ rest, p.2.2.2 = "AND" ∨ p.2.2.2 = "OR") :
    LemkPgUtils.get_conditions (CondInput.list
      (condTuple c o v Option.none ::
        rest.map fun p => condTuple p.1 p.2.1 p.2.2.1 (some p.2.2.2))) =
      Except.ok ((c ++ " " ++ o ++ " '" ++ v ++ "'") ::
        rest.map fun p =>
          p.2.2.2 ++ " " ++ p.1 ++ " " ++ p.2.1 ++ " '" ++ p.2.2.1 ++ "'") := by
  have hall : (condTuple c o v Option.none ::
      rest.map fun p => condTuple p.1 p.2.1 p.2.2.1 (some p.2.2.2)).all
        CondElem.isTuple = true := by
    rw [List.all_eq_true]
    intro e he
    rcases List.mem_cons.mp he with h | h
    · rw [h]; rfl
    · obtain ⟨p, _, hp⟩ := List.mem_map.mp h
      rw [← hp]; rfl
  have h0 : condFragmentOf (condTuple c o v Option.none) =
      Except.ok (c ++ " " ++ o ++ " '" ++ v ++ "'") := rfl
  simp only [LemkPgUtils.get_conditions, if_pos hall]
  simp only [buildFragments, h0, buildFragments_condTuple_map]

/-- Claim C4 witness: the theorem applied at a concrete two-condition
sequence joined by `OR`. -/
theorem get_conditions_well_formed_witness :
    LemkPgUtils.get_conditions (CondInput.list
      [condTuple "date" "=" "2006-01-05" Option.none,
       condTuple "symbol" "=" "A" (some "OR")]) =
      Except.ok ["date = '2006-01-05'", "OR symbol = 'A'"] := by
  simpa using get_conditions_well_formed "date" "=" "2006-01-05"
    [("symbol", "=", "A", "OR")]
    (by intro p hp; rw [List.mem_singleton] at hp; rw [hp]; exact Or.inr rfl)

/-- Claim C5: the executor returns only the first row the statement
produces, wrapped in a one-element result list, and turns a driver
`ProgrammingError` reported while iterating into an absent result instead
of propagating the error. -/
theorem get_query_result_first_row_only :
    (∀ (α : Type) (r : α) (rest : List α),
      LemkPgUtils.get_query_result (CursorRead.rows (r :: rest)) = some [r]) ∧
    (∀ (α : Type),
      @LemkPgUtils.get_query_result α CursorRead.programmingError = Option.none) :=
  ⟨fun _ _ _ => rfl, fun _ => rfl⟩

/-- Claim C6: `insert("t", (1, "a"), columns=None)` builds exactly
`INSERT INTO t  VALUES (1, 'a')` — with the double space left by the empty
column part — in the blocking and in the async variant, and the two
variants build the same string on every input. -/
theorem insert_double_space :
    LemkPgApi.insert "t" [PyVal.int 1, PyVal.str "a"] Option.none =
      "INSERT INTO t  VALUES (1, 'a')" ∧
    AsyncLemkPgApi.insert "t" [PyVal.int 1, PyVal.str "a"] Option.none =
      "INSERT INTO t  VALUES (1, 'a')" ∧
    ∀ t vs cols, AsyncLemkPgApi.insert t vs cols = LemkPgApi.insert t vs cols := by
  refine ⟨rfl, rfl, fun _ _ _ => rfl⟩

/-- Claim C7: `get("t", ["a","b"], conditions_list=[("x","=","1",None)],
distinct=True)` with no ordering arguments builds exactly
`SELECT DISTINCT a, b FROM t WHERE x = '1'`, in both variants. -/
theorem get_distinct_where_example :
    LemkPgApi.get "t" ["a", "b"] (some [condTuple "x" "=" "1" Option.none])
      true Option.none Option.none =
      Except.ok "SELECT DISTINCT a, b FROM t WHERE x = '1'" ∧
    AsyncLemkPgApi.get "t" ["a", "b"] (some [condTuple "x" "=" "1" Option.none])
      true Option.none Option.none =
      Except.ok "SELECT DISTINCT a, b FROM t WHERE x = '1'" := ⟨rfl, rfl⟩

/-- Claim C8: `create_table("t", {"id": "integer"}, primary_key=False)`
builds exactly `CREATE TABLE IF NOT EXISTS t (id integer)`, and with
`primary_key=False` the generated column list preserves the insertion
order of the field map. -/
theorem create_table_insertion_order :
    LemkPgApi.create_table "t" [("id", "integer")] false =
      "CREATE TABLE IF NOT EXISTS t (id integer)" ∧
    AsyncLemkPgApi.create_table "t" [("id", "integer")] false =
      "CREATE TABLE IF NOT EXISTS t (id integer)" ∧
    (∀ t fields, LemkPgApi.create_table t fields false =
      "CREATE TABLE IF NOT EXISTS " ++ t ++ " (" ++
        String.intercalate ", " (fields.map fun field => field.1 ++ " " ++ field.2) ++ ")") ∧
    LemkPgApi.create_table "t" [("id", "integer"), ("date", "text")] false =
      "CREATE TABLE IF NOT EXISTS t (id integer, date text)" ∧
    LemkPgApi.create_table "t" [("date", "text"), ("id", "integer")] false =
      "CREATE TABLE IF NOT EXISTS t (date text, id integer)" :=
  ⟨rfl, rfl, fun _ _ => rfl, rfl, rfl⟩

/-- Claim C9: for every operation taking an optional conditions list,
passing the empty list behaves exactly like passing `None`: the statement
is built without a `WHERE` clause and without invoking condition
validation. -/
theorem empty_conditions_like_none :
    (∀ t f d ob st,
      LemkPgApi.get t f (some []) d ob st = LemkPgApi.get t f Option.none d ob st) ∧
    (∀ t f d, LemkPgApi.get t f Option.none d Option.none Option.none =
      Except.ok ("SELECT " ++ (if d then "DISTINCT " else "") ++
        String.intercalate ", " f ++ " FROM " ++ t)) ∧
    (∀ t fl, LemkPgApi.update t fl (some []) = LemkPgApi.update t fl Option.none ∧
      LemkPgApi.update t fl Option.none = Except.ok ("UPDATE " ++ t ++ " SET " ++
        String.intercalate ", " (fl.map fun field => field.1 ++ " = '" ++ field.2 ++ "'"))) ∧
    (∀ t, LemkPgApi.delete_records t (some []) = LemkPgApi.delete_records t Option.none ∧
      LemkPgApi.delete_records t Option.none = Except.ok ("DELETE FROM " ++ t)) ∧
    (∀ t c, LemkPgApi.count t c (some []) = LemkPgApi.count t c Option.none ∧
      LemkPgApi.count t c Option.none =
        Except.ok ("SELECT COUNT(" ++ c ++ ") FROM " ++ t)) ∧
    (∀ t c, LemkPgApi.avg t c (some []) = LemkPgApi.avg t c Option.none ∧
      LemkPgApi.avg t c Option.none =
        Except.ok ("SELECT AVG(" ++ c ++ ") FROM " ++ t)) ∧
    (∀ t c, LemkPgApi.sum t c (some []) = LemkPgApi.sum t c Option.none ∧
      LemkPgApi.sum t c Option.none =
        Except.ok ("SELECT SUM(" ++ c ++ ") FROM " ++ t)) ∧
    (∀ t c, LemkPgApi.min t c (some []) = LemkPgApi.min t c Option.none ∧
      LemkPgApi.min t c Option.none =
        Except.ok ("SELECT MIN(" ++ c ++ ") FROM " ++ t)) ∧
    (∀ t c, LemkPgApi.max t c (some []) = LemkPgApi.max t c Option.none ∧
      LemkPgApi.max t c Option.none =
        Except.ok ("SELECT MAX(" ++ c ++ ") FROM " ++ t)) := by
  refine ⟨fun _ _ _ _ _ => rfl, ?_, fun _ _ => ⟨rfl, rfl⟩, fun _ => ⟨rfl, rfl⟩,
    fun _ _ => ⟨rfl, rfl⟩, fun _ _ => ⟨rfl, rfl⟩, fun _ _ => ⟨rfl, rfl⟩,
    fun _ _ => ⟨rfl, rfl⟩, fun _ _ => ⟨rfl, rfl⟩⟩
  intro t f d
  simp only [LemkPgApi.get, sortFragment]
  rw [string_append_empty]

/-- Claim C10: each convenience join variant called with `fields=None` and
`all=False` does not produce a statement string — joining the absent
fields raises `TypeError` — while any actual fields list does produce one,
so with the all-columns flag off the precondition is a non-`None` fields
list. -/
theorem join_variants_require_fields :
    (∀ t jt oc conds,
      LemkPgApi.inner_join t jt oc conds Option.none false =
        Except.error PyError.typeError) ∧
    (∀ t jt oc conds,
      LemkPgApi.left_join t jt oc conds Option.none false =
        Except.error PyError.typeError) ∧
    (∀ t jt oc conds,
      LemkPgApi.right_join t jt oc conds Option.none false =
        Except.error PyError.typeError) ∧
    (∀ t jt oc conds,
      LemkPgApi.full_join t jt oc conds Option.none false =
        Except.error PyError.typeError) ∧
    (∀ t jt oc conds,
      AsyncLemkPgApi.inner_join t jt oc conds Option.none false =
        Except.error PyError.typeError) ∧
    (∀ t jt oc fs, ∃ q,
      LemkPgApi.inner_join t jt oc Option.none (some fs) false = Except.ok q) ∧
    (∀ t jt oc fs, ∃ q,
      LemkPgApi.left_join t jt oc Option.none (some fs) false = Except.ok q) ∧
    (∀ t jt oc fs, ∃ q,
      LemkPgApi.right_join t jt oc Option.none (some fs) false = Except.ok q) ∧
    (∀ t jt oc fs, ∃ q,
      LemkPgApi.full_join t jt oc Option.none (some fs) false = Except.ok q) := by
  refine ⟨fun _ _ _ _ => rfl, fun _ _ _ _ => rfl, fun _ _ _ _ => rfl,
    fun _ _ _ _ => rfl, fun _ _ _ _ => rfl, ?_, ?_, ?_, ?_⟩
  all_goals
    intro t jt oc fs
    cases fs <;> exact ⟨_, rfl⟩

end Lemkpg
